import Mathlib

/-!
Shallow embedding of `doorman/query.py`: the typed filter-and-query engine
over result logs and distributed query results.

The record store (the ORM layer: `doorman/models.py` plus the SQLAlchemy
query interface) is external to `src/doorman/query.py`; it is embedded here
as an explicit `Store` value holding the record lists, with the store
operations used by the engine (`filter`, `one`, `all`, `in_`, `paginate`)
given their documented read-only semantics.
-/

namespace Doorman

/-- `QueryType` enum from `doorman/query.py`: RESULT or DISTRIBUTED. -/
inductive QueryType where
  | RESULT
  | DISTRIBUTED
deriving DecidableEq

/-- `FilterType` enum from `doorman/query.py`. -/
inductive FilterType where
  | NODE
  | QUERY
  | TIMESTAMP
  | ACTION
  | STATUS
deriving DecidableEq

/-- A filter value is opaque in the source (it is whatever the caller put in
the namedtuple); the values actually compared are record identities /
statuses (integers) and action tags (strings). -/
inductive FilterValue where
  | vnat (n : Nat)
  | vstr (s : String)
deriving DecidableEq

/-- `Filter = namedtuple('Filter', ['type', 'value'])`. -/
structure Filter where
  type : FilterType
  value : FilterValue
deriving DecidableEq

/-- SQL equality of an opaque filter value against an integer column:
matches only when the value is the same integer. -/
def valEqNat : FilterValue → Nat → Bool
  | .vnat m, n => m == n
  | .vstr _, _ => false

/-- SQL equality of an opaque filter value against a string column. -/
def valEqStr : FilterValue → String → Bool
  | .vstr a, b => a == b
  | .vnat _, _ => false

/-- An enrolled node (only the identity is relevant to the engine). -/
structure Node where
  id : Nat
deriving DecidableEq

/-- A `ResultLog` row: name, action tag and owning node. -/
structure ResultLog where
  id : Nat
  name : String
  action : String
  node_id : Nat
deriving DecidableEq

/-- A `DistributedQuery` row (only the identity is relevant). -/
structure DistributedQuery where
  id : Nat
deriving DecidableEq

/-- A `DistributedQueryTask` row: assignment of a distributed query to a
node, carrying a status. -/
structure DistributedQueryTask where
  id : Nat
  node_id : Nat
  distributed_query_id : Nat
  status : Nat
deriving DecidableEq

/-- A `DistributedQueryResult` row: references its task and its query. -/
structure DistributedQueryResult where
  id : Nat
  distributed_query_task_id : Nat
  distributed_query_id : Nat
deriving DecidableEq

/-- The record store: the table contents visible to one engine call. -/
structure Store where
  nodes : List Node
  result_logs : List ResultLog
  distributed_queries : List DistributedQuery
  tasks : List DistributedQueryTask
  distributed_results : List DistributedQueryResult
deriving DecidableEq

/-- Errors the engine call can surface. `UnsupportedFilterKind` is the
`ValueError` of the two `else` branches (it carries the offending filter and
the query kind named in the message); `NotImplementedTimestamp` is the
`NotImplementedError` of the TIMESTAMP branches; `NodeNotFound` and
`DistributedQueryNotFound` are the `.one()` failures of the identity
lookups; `InvalidPagination` is the store-level pagination failure. -/
inductive QueryError where
  | UnsupportedFilterKind (qt : QueryType) (f : Filter)
  | NotImplementedTimestamp
  | NodeNotFound
  | DistributedQueryNotFound
  | InvalidPagination
deriving DecidableEq

/-- `Query.one()`: succeeds exactly when the predicate selects exactly one
row of the table. -/
def queryOne {α : Type} (table : List α) (p : α → Bool) : Option α :=
  match table.filter p with
  | [a] => some a
  | _ => none

/-- One iteration of the filter loop of `get_resultlog_results`
(query.py lines 70-86), applied to the rows selected so far. -/
def applyResultLogFilter (s : Store) (acc : List ResultLog) (f : Filter) :
    Except QueryError (List ResultLog) :=
  match f.type with
  | .NODE =>
    match queryOne s.nodes (fun n => valEqNat f.value n.id) with
    | some node => .ok (acc.filter (fun r => r.node_id == node.id))
    | none => .error .NodeNotFound
  | .QUERY => .ok (acc.filter (fun r => valEqNat f.value r.id))
  | .TIMESTAMP => .error .NotImplementedTimestamp
  | .ACTION => .ok (acc.filter (fun r => valEqStr f.value r.action))
  | .STATUS => .error (.UnsupportedFilterKind .RESULT f)

/-- The filter loop of `get_resultlog_results`: left-to-right, stopping at
the first error. -/
def foldResultLogFilters (s : Store) : List Filter → List ResultLog →
    Except QueryError (List ResultLog)
  | [], acc => .ok acc
  | f :: fs, acc =>
    match applyResultLogFilter s acc f with
    | .ok acc1 => foldResultLogFilters s fs acc1
    | .error e => .error e

/-- `get_resultlog_results(filters, page, per_page)` (query.py lines 67-88).
`page` and `per_page` are in the source signature but unused there. -/
def get_resultlog_results (s : Store) (filters : List Filter)
    (page per_page : Int) : Except QueryError (List ResultLog) :=
  let _ := page
  let _ := per_page
  foldResultLogFilters s filters s.result_logs

/-- One iteration of the task filter loop of `get_distributed_results`
(query.py lines 94-111). -/
def applyTaskFilter (s : Store) (acc : List DistributedQueryTask)
    (f : Filter) : Except QueryError (List DistributedQueryTask) :=
  match f.type with
  | .NODE =>
    match queryOne s.nodes (fun n => valEqNat f.value n.id) with
    | some node => .ok (acc.filter (fun t => t.node_id == node.id))
    | none => .error .NodeNotFound
  | .QUERY =>
    match queryOne s.distributed_queries (fun q => valEqNat f.value q.id) with
    | some dq => .ok (acc.filter (fun t => t.distributed_query_id == dq.id))
    | none => .error .DistributedQueryNotFound
  | .TIMESTAMP => .error .NotImplementedTimestamp
  | .STATUS => .ok (acc.filter (fun t => valEqNat f.value t.status))
  | .ACTION => .error (.UnsupportedFilterKind .DISTRIBUTED f)

/-- The task filter loop of `get_distributed_results`. -/
def foldTaskFilters (s : Store) : List Filter → List DistributedQueryTask →
    Except QueryError (List DistributedQueryTask)
  | [], acc => .ok acc
  | f :: fs, acc =>
    match applyTaskFilter s acc f with
    | .ok acc1 => foldTaskFilters s fs acc1
    | .error e => .error e

/-- `get_distributed_results(filters, page, per_page)` (query.py lines
91-119): filter tasks, collect their ids, then select the result rows whose
task id is a member of that list. -/
def get_distributed_results (s : Store) (filters : List Filter)
    (page per_page : Int) : Except QueryError (List DistributedQueryResult) :=
  let _ := page
  let _ := per_page
  match foldTaskFilters s filters s.tasks with
  | .error e => .error e
  | .ok tasks =>
    let ids := tasks.map (fun t => t.id)
    .ok (s.distributed_results.filter
      (fun r => ids.contains r.distributed_query_task_id))

/-- A record returned by `get_results`: either a result log row (RESULT
queries) or a distributed query result row (DISTRIBUTED queries). -/
inductive Record where
  | resultLog (r : ResultLog)
  | distResult (r : DistributedQueryResult)
deriving DecidableEq

/-- The page object returned by the store's paginate call. -/
structure Pagination where
  items : List Record
  total : Nat
  page : Int
  per_page : Int
deriving DecidableEq

/-- Modelled from the spec: the Record Store's `paginate` operation
(`doorman/models.py` / the ORM query class, outside `src/`): it rejects
`page < 1` or `per_page < 1` with `InvalidPagination` and otherwise returns
the total count and the page slice of the resolved record list in store
order. -/
def paginate (l : List Record) (page per_page : Int) :
    Except QueryError Pagination :=
  if page < 1 ∨ per_page < 1 then .error .InvalidPagination
  else .ok ⟨(l.drop ((page - 1) * per_page).toNat).take per_page.toNat,
    l.length, page, per_page⟩

/-- `get_results(query_type, filters, page, per_page, order_by, sort)`
(query.py lines 44-64): dispatch on the query type, build the filtered
record set, then paginate it. `order_by` and `sort` are accepted but never
used (the `if order_by is not None` body is `pass`). -/
def get_results (s : Store) (query_type : QueryType)
    (filters : Option (List Filter)) (page per_page : Int)
    (order_by : Option String) (sort : String) :
    Except QueryError Pagination :=
  let _ := order_by
  let _ := sort
  let fl := filters.getD []
  match query_type with
  | .RESULT =>
    match get_resultlog_results s fl page per_page with
    | .error e => .error e
    | .ok rs => paginate (rs.map Record.resultLog) page per_page
  | .DISTRIBUTED =>
    match get_distributed_results s fl page per_page with
    | .error e => .error e
    | .ok rs => paginate (rs.map Record.distResult) page per_page

/-- The row-level predicate that one valid RESULT-query filter denotes:
what `applyResultLogFilter` ANDs onto the accumulated query. -/
def resultLogPred (s : Store) (f : Filter) (r : ResultLog) : Bool :=
  match f.type with
  | .NODE =>
    match queryOne s.nodes (fun n => valEqNat f.value n.id) with
    | some node => r.node_id == node.id
    | none => false
  | .QUERY => valEqNat f.value r.id
  | .ACTION => valEqStr f.value r.action
  | _ => false

/-- The task-level predicate that one valid DISTRIBUTED-query filter
denotes. -/
def taskPred (s : Store) (f : Filter) (t : DistributedQueryTask) : Bool :=
  match f.type with
  | .NODE =>
    match queryOne s.nodes (fun n => valEqNat f.value n.id) with
    | some node => t.node_id == node.id
    | none => false
  | .QUERY =>
    match queryOne s.distributed_queries (fun q => valEqNat f.value q.id) with
    | some dq => t.distributed_query_id == dq.id
    | none => false
  | .STATUS => valEqNat f.value t.status
  | _ => false

/-- A filter is applicable for a query kind in a store when applying it
neither raises nor fails to resolve: its kind is legal for the kind of
query, it is not the unimplemented TIMESTAMP kind, and any identity it
references resolves to exactly one record. -/
def applicable (s : Store) (qt : QueryType) (f : Filter) : Bool :=
  match qt, f.type with
  | _, .NODE => (queryOne s.nodes (fun n => valEqNat f.value n.id)).isSome
  | .RESULT, .QUERY => true
  | .RESULT, .ACTION => true
  | .RESULT, .STATUS => false
  | .DISTRIBUTED, .QUERY =>
    (queryOne s.distributed_queries (fun q => valEqNat f.value q.id)).isSome
  | .DISTRIBUTED, .ACTION => false
  | .DISTRIBUTED, .STATUS => true
  | _, .TIMESTAMP => false

/-- A filter kind that is illegal under the given query kind (the two
`else` branches of the source). -/
def invalidFor (qt : QueryType) (ft : FilterType) : Bool :=
  (qt == .RESULT && ft == .STATUS) || (qt == .DISTRIBUTED && ft == .ACTION)

/-! State-threaded translation of the same functions: every store
operation performed by the engine receives the store produced by the
previous operation and passes on the store it leaves behind.  All the
operations the source invokes (`Query.filter`, `Query.one`, `Query.all`,
`Query.paginate`) are SELECT-only reads, so each returns its input store. -/

/-- State-threaded `applyResultLogFilter`. -/
def applyResultLogFilter_st (s : Store) (acc : List ResultLog) (f : Filter) :
    Store × Except QueryError (List ResultLog) :=
  match f.type with
  | .NODE =>
    match queryOne s.nodes (fun n => valEqNat f.value n.id) with
    | some node => (s, .ok (acc.filter (fun r => r.node_id == node.id)))
    | none => (s, .error .NodeNotFound)
  | .QUERY => (s, .ok (acc.filter (fun r => valEqNat f.value r.id)))
  | .TIMESTAMP => (s, .error .NotImplementedTimestamp)
  | .ACTION => (s, .ok (acc.filter (fun r => valEqStr f.value r.action)))
  | .STATUS => (s, .error (.UnsupportedFilterKind .RESULT f))

/-- State-threaded filter loop for RESULT queries. -/
def foldResultLogFilters_st (s : Store) : List Filter → List ResultLog →
    Store × Except QueryError (List ResultLog)
  | [], acc => (s, .ok acc)
  | f :: fs, acc =>
    match applyResultLogFilter_st s acc f with
    | (s1, .ok acc1) => foldResultLogFilters_st s1 fs acc1
    | (s1, .error e) => (s1, .error e)

/-- State-threaded `get_resultlog_results`. -/
def get_resultlog_results_st (s : Store) (filters : List Filter)
    (page per_page : Int) : Store × Except QueryError (List ResultLog) :=
  let _ := page
  let _ := per_page
  foldResultLogFilters_st s filters s.result_logs

/-- State-threaded `applyTaskFilter`. -/
def applyTaskFilter_st (s : Store) (acc : List DistributedQueryTask)
    (f : Filter) : Store × Except QueryError (List DistributedQueryTask) :=
  match f.type with
  | .NODE =>
    match queryOne s.nodes (fun n => valEqNat f.value n.id) with
    | some node => (s, .ok (acc.filter (fun t => t.node_id == node.id)))
    | none => (s, .error .NodeNotFound)
  | .QUERY =>
    match queryOne s.distributed_queries (fun q => valEqNat f.value q.id) with
    | some dq => (s, .ok (acc.filter (fun t => t.distributed_query_id == dq.id)))
    | none => (s, .error .DistributedQueryNotFound)
  | .TIMESTAMP => (s, .error .NotImplementedTimestamp)
  | .STATUS => (s, .ok (acc.filter (fun t => valEqNat f.value t.status)))
  | .ACTION => (s, .error (.UnsupportedFilterKind .DISTRIBUTED f))

/-- State-threaded task filter loop. -/
def foldTaskFilters_st (s : Store) : List Filter → List DistributedQueryTask →
    Store × Except QueryError (List DistributedQueryTask)
  | [], acc => (s, .ok acc)
  | f :: fs, acc =>
    match applyTaskFilter_st s acc f with
    | (s1, .ok acc1) => foldTaskFilters_st s1 fs acc1
    | (s1, .error e) => (s1, .error e)

/-- State-threaded `get_distributed_results`: the `query.all()` call that
collects the task ids is a read of the store produced by the loop. -/
def get_distributed_results_st (s : Store) (filters : List Filter)
    (page per_page : Int) :
    Store × Except QueryError (List DistributedQueryResult) :=
  let _ := page
  let _ := per_page
  match foldTaskFilters_st s filters s.tasks with
  | (s1, .error e) => (s1, .error e)
  | (s1, .ok tasks) =>
    let ids := tasks.map (fun t => t.id)
    (s1, .ok (s1.distributed_results.filter
      (fun r => ids.contains r.distributed_query_task_id)))

/-- State-threaded paginate: the final SELECT with LIMIT/OFFSET is a
read. -/
def paginate_st (s : Store) (l : List Record) (page per_page : Int) :
    Store × Except QueryError Pagination :=
  (s, paginate l page per_page)

/-- State-threaded `get_results`. -/
def get_results_st (s : Store) (query_type : QueryType)
    (filters : Option (List Filter)) (page per_page : Int)
    (order_by : Option String) (sort : String) :
    Store × Except QueryError Pagination :=
  let _ := order_by
  let _ := sort
  let fl := filters.getD []
  match query_type with
  | .RESULT =>
    match get_resultlog_results_st s fl page per_page with
    | (s1, .error e) => (s1, .error e)
    | (s1, .ok rs) => paginate_st s1 (rs.map Record.resultLog) page per_page
  | .DISTRIBUTED =>
    match get_distributed_results_st s fl page per_page with
    | (s1, .error e) => (s1, .error e)
    | (s1, .ok rs) => paginate_st s1 (rs.map Record.distResult) page per_page

/-! Concrete data used to instantiate the theorems, mirroring the fixtures
of `tests/test_query.py`: one node, two distributed queries each with one
task (statuses COMPLETE = 2 and NEW = 0), one result row per task, and two
result-log rows. -/

/-- The `sort` default of the source signature. -/
def asc : String := "asc"

/-- The action tag used by the test fixtures. -/
def added : String := "added"

/-- A second action tag. -/
def removed : String := "removed"

/-- Name of the first scheduled query in the fixtures. -/
def query1 : String := "query1"

/-- Name of the second scheduled query in the fixtures. -/
def query2 : String := "query2"

/-- Fixture store mirroring the test setup. -/
def S1 : Store :=
  { nodes := [⟨1⟩]
    result_logs := [⟨1, query1, added, 1⟩, ⟨2, query2, removed, 1⟩]
    distributed_queries := [⟨1⟩, ⟨2⟩]
    tasks := [⟨1, 1, 1, 2⟩, ⟨2, 1, 2, 0⟩]
    distributed_results := [⟨1, 1, 1⟩, ⟨2, 2, 2⟩] }

/-- `List.all` is invariant under permutation of the list. -/
theorem all_congr_of_perm {α : Type} (p : α → Bool) {l l2 : List α}
    (h : l.Perm l2) : l.all p = l2.all p := by
  cases hb : l2.all p with
  | true =>
    simp only [List.all_eq_true] at hb ⊢
    exact fun x hx => hb x (h.mem_iff.mp hx)
  | false =>
    simp only [List.all_eq_false] at hb ⊢
    obtain ⟨x, hx, hpx⟩ := hb
    exact ⟨x, h.mem_iff.mpr hx, hpx⟩

/-- An applicable filter never errors on a RESULT query: it restricts the
accumulated rows by its row predicate. -/
theorem applyResultLogFilter_applicable (s : Store) (acc : List ResultLog)
    (f : Filter) (h : applicable s .RESULT f = true) :
    applyResultLogFilter s acc f = .ok (acc.filter (resultLogPred s f)) := by
  obtain ⟨ft, v⟩ := f
  cases ft with
  | NODE =>
    simp only [applicable] at h
    cases hq : queryOne s.nodes (fun n => valEqNat v n.id) with
    | none => rw [hq] at h; simp at h
    | some node =>
      simp only [applyResultLogFilter, hq]
      exact congrArg Except.ok
        (List.filter_congr fun r _ => by simp [resultLogPred, hq])
  | QUERY =>
    simp only [applyResultLogFilter]
    exact congrArg Except.ok
      (List.filter_congr fun r _ => by simp [resultLogPred])
  | TIMESTAMP => simp [applicable] at h
  | ACTION =>
    simp only [applyResultLogFilter]
    exact congrArg Except.ok
      (List.filter_congr fun r _ => by simp [resultLogPred])
  | STATUS => simp [applicable] at h

/-- When every filter is applicable, the RESULT-query filter loop succeeds
and computes the conjunction of the row predicates. -/
theorem foldResultLogFilters_applicable (s : Store) (fs : List Filter)
    (acc : List ResultLog) (h : ∀ f ∈ fs, applicable s .RESULT f = true) :
    foldResultLogFilters s fs acc =
      .ok (acc.filter (fun r => fs.all (fun f => resultLogPred s f r))) := by
  induction fs generalizing acc with
  | nil => simp [foldResultLogFilters]
  | cons f fs ih =>
    have hf := applyResultLogFilter_applicable s acc f
      (h f (List.mem_cons_self f fs))
    have hfs : ∀ g ∈ fs, applicable s .RESULT g = true :=
      fun g hg => h g (List.mem_cons_of_mem f hg)
    simp only [foldResultLogFilters, hf]
    rw [ih _ hfs, List.filter_filter]
    refine congrArg Except.ok (List.filter_congr fun x _ => ?hx)
    rw [List.all_cons]
    exact Bool.and_comm _ _

/-- `get_resultlog_results` on applicable filters: the selected rows are
exactly those of the table satisfying every filter predicate. -/
theorem get_resultlog_results_applicable (s : Store) (fs : List Filter)
    (page pp : Int) (h : ∀ f ∈ fs, applicable s .RESULT f = true) :
    get_resultlog_results s fs page pp =
      .ok (s.result_logs.filter
        (fun r => fs.all (fun f => resultLogPred s f r))) :=
  foldResultLogFilters_applicable s fs s.result_logs h

/-- An applicable filter never errors on a DISTRIBUTED query. -/
theorem applyTaskFilter_applicable (s : Store)
    (acc : List DistributedQueryTask) (f : Filter)
    (h : applicable s .DISTRIBUTED f = true) :
    applyTaskFilter s acc f = .ok (acc.filter (taskPred s f)) := by
  obtain ⟨ft, v⟩ := f
  cases ft with
  | NODE =>
    simp only [applicable] at h
    cases hq : queryOne s.nodes (fun n => valEqNat v n.id) with
    | none => rw [hq] at h; simp at h
    | some node =>
      simp only [applyTaskFilter, hq]
      exact congrArg Except.ok
        (List.filter_congr fun t _ => by simp [taskPred, hq])
  | QUERY =>
    simp only [applicable] at h
    cases hq : queryOne s.distributed_queries (fun q => valEqNat v q.id) with
    | none => rw [hq] at h; simp at h
    | some dq =>
      simp only [applyTaskFilter, hq]
      exact congrArg Except.ok
        (List.filter_congr fun t _ => by simp [taskPred, hq])
  | TIMESTAMP => simp [applicable] at h
  | ACTION => simp [applicable] at h
  | STATUS =>
    simp only [applyTaskFilter]
    exact congrArg Except.ok
      (List.filter_congr fun t _ => by simp [taskPred])

/-- When every filter is applicable, the task filter loop computes the
conjunction of the task predicates. -/
theorem foldTaskFilters_applicable (s : Store) (fs : List Filter)
    (acc : List DistributedQueryTask)
    (h : ∀ f ∈ fs, applicable s .DISTRIBUTED f = true) :
    foldTaskFilters s fs acc =
      .ok (acc.filter (fun t => fs.all (fun f => taskPred s f t))) := by
  induction fs generalizing acc with
  | nil => simp [foldTaskFilters]
  | cons f fs ih =>
    have hf := applyTaskFilter_applicable s acc f
      (h f (List.mem_cons_self f fs))
    have hfs : ∀ g ∈ fs, applicable s .DISTRIBUTED g = true :=
      fun g hg => h g (List.mem_cons_of_mem f hg)
    simp only [foldTaskFilters, hf]
    rw [ih _ hfs, List.filter_filter]
    refine congrArg Except.ok (List.filter_congr fun x _ => ?hx)
    rw [List.all_cons]
    exact Bool.and_comm _ _

/-- `get_distributed_results` on applicable filters: select the result
rows whose task id belongs to the ids of the tasks satisfying every
filter predicate. -/
theorem get_distributed_results_applicable (s : Store) (fs : List Filter)
    (page pp : Int) (h : ∀ f ∈ fs, applicable s .DISTRIBUTED f = true) :
    get_distributed_results s fs page pp =
      .ok (s.distributed_results.filter (fun r =>
        ((s.tasks.filter (fun t => fs.all (fun f => taskPred s f t))).map
          (fun t => t.id)).contains r.distributed_query_task_id)) := by
  unfold get_distributed_results
  rw [foldTaskFilters_applicable s fs s.tasks h]

/-- C4: for a RESULT query with a QUERY filter on value v, the returned
records are exactly the ResultLog rows whose own identity equals v (the
filter compares `ResultLog.id`, not the query name). -/
theorem resultlog_query_filter_is_identity (s : Store) (v : Nat)
    (page pp : Int) (res : List ResultLog)
    (h : get_resultlog_results s [⟨.QUERY, .vnat v⟩] page pp = .ok res)
    (r : ResultLog) : r ∈ res ↔ r ∈ s.result_logs ∧ r.id = v := by
  have hc : get_resultlog_results s [⟨.QUERY, .vnat v⟩] page pp =
      .ok (s.result_logs.filter (fun x => valEqNat (.vnat v) x.id)) := rfl
  rw [h] at hc
  injection hc with hres
  subst hres
  simp only [List.mem_filter, valEqNat, beq_iff_eq, decide_eq_true_eq]
  exact and_congr_right fun _ => eq_comm

/-- Witness for `resultlog_query_filter_is_identity` on the fixture
store. -/
theorem resultlog_query_filter_is_identity_witness :
    (⟨2, query2, removed, 1⟩ : ResultLog) ∈ [(⟨2, query2, removed, 1⟩ : ResultLog)] ↔
      (⟨2, query2, removed, 1⟩ : ResultLog) ∈ S1.result_logs ∧
        (⟨2, query2, removed, 1⟩ : ResultLog).id = 2 :=
  resultlog_query_filter_is_identity S1 2 1 20 [⟨2, query2, removed, 1⟩]
    rfl ⟨2, query2, removed, 1⟩

/-- C1: for a DISTRIBUTED query with a STATUS filter on status v, the
result set is exactly the DistributedQueryResult rows whose owning task
has status v; tasks with any other status contribute no results. -/
theorem distributed_status_filter_exact (s : Store) (v : Nat)
    (page pp : Int) (res : List DistributedQueryResult)
    (h : get_distributed_results s [⟨.STATUS, .vnat v⟩] page pp = .ok res)
    (r : DistributedQueryResult) :
    r ∈ res ↔ r ∈ s.distributed_results ∧
      ∃ t, t ∈ s.tasks ∧ t.id = r.distributed_query_task_id ∧
        t.status = v := by
  have hc : get_distributed_results s [⟨.STATUS, .vnat v⟩] page pp =
      .ok (s.distributed_results.filter (fun x =>
        ((s.tasks.filter (fun t => valEqNat (.vnat v) t.status)).map
          (fun t => t.id)).contains x.distributed_query_task_id)) := rfl
  rw [h] at hc
  injection hc with hres
  subst hres
  simp only [List.mem_filter, List.contains, List.elem_eq_mem,
    decide_eq_true_eq, List.mem_map, valEqNat, beq_iff_eq]
  constructor
  · rintro ⟨hr, t, ⟨ht, hst⟩, hid⟩
    exact ⟨hr, t, ht, hid, hst.symm⟩
  · rintro ⟨hr, t, ht, hid, hst⟩
    exact ⟨hr, t, ⟨ht, hst.symm⟩, hid⟩

/-- Witness for `distributed_status_filter_exact` on the fixture store
(task 1 is COMPLETE with a result row, task 2 is NEW with a result row). -/
theorem distributed_status_filter_exact_witness :
    (⟨1, 1, 1⟩ : DistributedQueryResult) ∈ [(⟨1, 1, 1⟩ : DistributedQueryResult)] ↔
      (⟨1, 1, 1⟩ : DistributedQueryResult) ∈ S1.distributed_results ∧
        ∃ t, t ∈ S1.tasks ∧
          t.id = (⟨1, 1, 1⟩ : DistributedQueryResult).distributed_query_task_id ∧
          t.status = 2 :=
  distributed_status_filter_exact S1 2 1 20 [⟨1, 1, 1⟩] rfl ⟨1, 1, 1⟩

/-- C9: `order_by` and `sort` have no effect on the output of
`get_results`: any two calls differing only in these two arguments return
the same value. -/
theorem order_by_sort_have_no_effect (s : Store) (qt : QueryType)
    (filters : Option (List Filter)) (page pp : Int)
    (ob1 ob2 : Option String) (srt1 srt2 : String) :
    get_results s qt filters page pp ob1 srt1 =
      get_results s qt filters page pp ob2 srt2 := rfl

/-- The state-threaded RESULT filter step returns its input store. -/
theorem applyResultLogFilter_st_eq (s : Store) (acc : List ResultLog)
    (f : Filter) :
    applyResultLogFilter_st s acc f = (s, applyResultLogFilter s acc f) := by
  obtain ⟨ft, v⟩ := f
  cases ft with
  | NODE =>
    cases hq : queryOne s.nodes (fun n => valEqNat v n.id) <;>
      simp [applyResultLogFilter_st, applyResultLogFilter, hq]
  | QUERY => rfl
  | TIMESTAMP => rfl
  | ACTION => rfl
  | STATUS => rfl

/-- The state-threaded RESULT filter loop returns its input store. -/
theorem foldResultLogFilters_st_eq (s : Store) (fs : List Filter)
    (acc : List ResultLog) :
    foldResultLogFilters_st s fs acc = (s, foldResultLogFilters s fs acc) := by
  induction fs generalizing acc with
  | nil => rfl
  | cons f fs ih =>
    simp only [foldResultLogFilters_st, foldResultLogFilters,
      applyResultLogFilter_st_eq s acc f]
    cases h : applyResultLogFilter s acc f <;> simp [h, ih]

/-- The state-threaded task filter step returns its input store. -/
theorem applyTaskFilter_st_eq (s : Store) (acc : List DistributedQueryTask)
    (f : Filter) :
    applyTaskFilter_st s acc f = (s, applyTaskFilter s acc f) := by
  obtain ⟨ft, v⟩ := f
  cases ft with
  | NODE =>
    cases hq : queryOne s.nodes (fun n => valEqNat v n.id) <;>
      simp [applyTaskFilter_st, applyTaskFilter, hq]
  | QUERY =>
    cases hq : queryOne s.distributed_queries (fun q => valEqNat v q.id) <;>
      simp [applyTaskFilter_st, applyTaskFilter, hq]
  | TIMESTAMP => rfl
  | ACTION => rfl
  | STATUS => rfl

/-- The state-threaded task filter loop returns its input store. -/
theorem foldTaskFilters_st_eq (s : Store) (fs : List Filter)
    (acc : List DistributedQueryTask) :
    foldTaskFilters_st s fs acc = (s, foldTaskFilters s fs acc) := by
  induction fs generalizing acc with
  | nil => rfl
  | cons f fs ih =>
    simp only [foldTaskFilters_st, foldTaskFilters, applyTaskFilter_st_eq s acc f]
    cases h : applyTaskFilter s acc f <;> simp [h, ih]

/-- C8: the engine is a pure read path.  Threading the store explicitly
through every store operation the source performs, the store that comes out
of `get_results` is the store that went in — no record is created, mutated
or deleted, whether the call succeeds or fails — and the value produced is
that of the pure engine. -/
theorem engine_preserves_store (s : Store) (qt : QueryType)
    (filters : Option (List Filter)) (page pp : Int) (ob : Option String)
    (srt : String) :
    (get_results_st s qt filters page pp ob srt).1 = s ∧
      (get_results_st s qt filters page pp ob srt).2 =
        get_results s qt filters page pp ob srt := by
  cases qt with
  | RESULT =>
    simp only [get_results_st, get_results, get_resultlog_results_st,
      get_resultlog_results, foldResultLogFilters_st_eq]
    cases h : foldResultLogFilters s (filters.getD []) s.result_logs <;>
      simp [h, paginate_st]
  | DISTRIBUTED =>
    simp only [get_results_st, get_results, get_distributed_results_st,
      get_distributed_results, foldTaskFilters_st_eq]
    cases h : foldTaskFilters s (filters.getD []) s.tasks <;>
      simp [h, paginate_st]

/-- C7: filter order is irrelevant to the result: when every filter is
valid for the query kind and resolvable, any permutation of the filter
list produces the same paginated result. -/
theorem filter_order_irrelevant (s : Store) (qt : QueryType)
    (l l2 : List Filter) (page pp : Int) (ob : Option String) (srt : String)
    (hp : l.Perm l2) (h : ∀ f ∈ l, applicable s qt f = true) :
    get_results s qt (some l) page pp ob srt =
      get_results s qt (some l2) page pp ob srt := by
  have h2 : ∀ f ∈ l2, applicable s qt f = true :=
    fun f hf => h f (hp.mem_iff.mpr hf)
  cases qt with
  | RESULT =>
    have e1 := get_resultlog_results_applicable s l page pp h
    have e2 := get_resultlog_results_applicable s l2 page pp h2
    have hL : s.result_logs.filter (fun r => l.all fun f => resultLogPred s f r)
        = s.result_logs.filter (fun r => l2.all fun f => resultLogPred s f r) :=
      List.filter_congr fun x _ => all_congr_of_perm _ hp
    simp only [get_results, Option.getD_some, e1, e2, hL]
  | DISTRIBUTED =>
    have e1 := get_distributed_results_applicable s l page pp h
    have e2 := get_distributed_results_applicable s l2 page pp h2
    have hT : s.tasks.filter (fun t => l.all fun f => taskPred s f t)
        = s.tasks.filter (fun t => l2.all fun f => taskPred s f t) :=
      List.filter_congr fun x _ => all_congr_of_perm _ hp
    simp only [get_results, Option.getD_some, e1, e2, hT]

/-- Witness for `filter_order_irrelevant`: NODE and STATUS filters in both
orders on the fixture store. -/
theorem filter_order_irrelevant_witness :
    get_results S1 .DISTRIBUTED
        (some [⟨.NODE, .vnat 1⟩, ⟨.STATUS, .vnat 2⟩]) 1 20 none asc =
      get_results S1 .DISTRIBUTED
        (some [⟨.STATUS, .vnat 2⟩, ⟨.NODE, .vnat 1⟩]) 1 20 none asc :=
  filter_order_irrelevant S1 .DISTRIBUTED
    [⟨.NODE, .vnat 1⟩, ⟨.STATUS, .vnat 2⟩]
    [⟨.STATUS, .vnat 2⟩, ⟨.NODE, .vnat 1⟩] 1 20 none asc
    (List.Perm.swap _ _ _) (by decide)

/-- The RESULT filter loop over a concatenation runs the first part, then
the second from where the first stopped. -/
theorem foldResultLogFilters_append (s : Store) (l1 l2 : List Filter)
    (acc : List ResultLog) :
    foldResultLogFilters s (l1 ++ l2) acc =
      match foldResultLogFilters s l1 acc with
      | .ok acc1 => foldResultLogFilters s l2 acc1
      | .error e => .error e := by
  induction l1 generalizing acc with
  | nil => rfl
  | cons f fs ih =>
    simp only [List.cons_append, foldResultLogFilters]
    cases h : applyResultLogFilter s acc f <;> simp [h, ih]

/-- The task filter loop over a concatenation runs the first part, then the
second from where the first stopped. -/
theorem foldTaskFilters_append (s : Store) (l1 l2 : List Filter)
    (acc : List DistributedQueryTask) :
    foldTaskFilters s (l1 ++ l2) acc =
      match foldTaskFilters s l1 acc with
      | .ok acc1 => foldTaskFilters s l2 acc1
      | .error e => .error e := by
  induction l1 generalizing acc with
  | nil => rfl
  | cons f fs ih =>
    simp only [List.cons_append, foldTaskFilters]
    cases h : applyTaskFilter s acc f <;> simp [h, ih]

/-- Counterexample for C2 as stated: the filter list contains a filter of
invalid kind for the query kind (STATUS under RESULT), yet the call fails
with the TIMESTAMP error of the earlier filter, not with
`UnsupportedFilterKind`. -/
theorem invalid_kind_not_always_reported :
    get_results S1 .RESULT
        (some [⟨.TIMESTAMP, .vnat 0⟩, ⟨.STATUS, .vnat 2⟩]) 1 20 none asc =
      .error .NotImplementedTimestamp := rfl

/-- C2 (amended): when every filter before the offending one is valid and
resolvable, a filter whose kind is invalid for the active query kind makes
the call fail with `UnsupportedFilterKind` naming that filter. -/
theorem unsupported_filter_first_offender (s : Store) (qt : QueryType)
    (pre post : List Filter) (f : Filter) (page pp : Int)
    (ob : Option String) (srt : String)
    (hpre : ∀ g ∈ pre, applicable s qt g = true)
    (hf : invalidFor qt f.type = true) :
    get_results s qt (some (pre ++ f :: post)) page pp ob srt =
      .error (.UnsupportedFilterKind qt f) := by
  obtain ⟨ft, v⟩ := f
  cases qt with
  | RESULT =>
    have hft : ft = .STATUS := by cases ft <;> simp_all [invalidFor]
    subst hft
    have e1 := foldResultLogFilters_applicable s pre s.result_logs hpre
    simp only [get_results, get_resultlog_results, Option.getD_some]
    rw [foldResultLogFilters_append, e1]
    simp [foldResultLogFilters, applyResultLogFilter]
  | DISTRIBUTED =>
    have hft : ft = .ACTION := by cases ft <;> simp_all [invalidFor]
    subst hft
    have e1 := foldTaskFilters_applicable s pre s.tasks hpre
    simp only [get_results, get_distributed_results, Option.getD_some]
    rw [foldTaskFilters_append, e1]
    simp [foldTaskFilters, applyTaskFilter]

/-- Witness for `unsupported_filter_first_offender`: a resolvable NODE
filter followed by an ACTION filter under DISTRIBUTED. -/
theorem unsupported_filter_first_offender_witness :
    get_results S1 .DISTRIBUTED
        (some ([⟨.NODE, .vnat 1⟩] ++ ⟨.ACTION, .vstr added⟩ :: [])) 1 20 none asc =
      .error (.UnsupportedFilterKind .DISTRIBUTED ⟨.ACTION, .vstr added⟩) :=
  unsupported_filter_first_offender S1 .DISTRIBUTED [⟨.NODE, .vnat 1⟩] []
    ⟨.ACTION, .vstr added⟩ 1 20 none asc (by decide) (by decide)

/-- Counterexample for C3 as stated: a call with `page = 0 < 1` does not
fail with `InvalidPagination`; the engine performs filter resolution first
and the TIMESTAMP filter error wins. -/
theorem invalid_pagination_not_checked_first :
    get_results S1 .RESULT (some [⟨.TIMESTAMP, .vnat 0⟩]) 0 20 none asc =
      .error .NotImplementedTimestamp := rfl

/-- C3 (amended): when every filter is valid and resolvable, a call with
`page < 1` or `per_page < 1` fails with `InvalidPagination`; the check
lives in the store's paginate step, after filter resolution, not in the
engine before store access. -/
theorem invalid_pagination_fails_after_filters (s : Store) (qt : QueryType)
    (l : List Filter) (page pp : Int) (ob : Option String) (srt : String)
    (h : ∀ f ∈ l, applicable s qt f = true) (hpage : page < 1 ∨ pp < 1) :
    get_results s qt (some l) page pp ob srt = .error .InvalidPagination := by
  cases qt with
  | RESULT =>
    have e1 := get_resultlog_results_applicable s l page pp h
    simp only [get_results, Option.getD_some, e1]
    simp [paginate, hpage]
  | DISTRIBUTED =>
    have e1 := get_distributed_results_applicable s l page pp h
    simp only [get_results, Option.getD_some, e1]
    simp [paginate, hpage]

/-- Witness for `invalid_pagination_fails_after_filters`: no filters and
`page = 0`. -/
theorem invalid_pagination_fails_after_filters_witness :
    get_results S1 .RESULT (some []) 0 20 none asc =
      .error .InvalidPagination :=
  invalid_pagination_fails_after_filters S1 .RESULT [] 0 20 none asc
    (by decide) (Or.inl (by decide))

/-- Counterexample for C5 as stated: the filter list contains a TIMESTAMP
filter, yet the call fails with `UnsupportedFilterKind` for the earlier
invalid-kind filter, not with the NotImplemented error. -/
theorem timestamp_error_not_always_raised :
    get_results S1 .RESULT
        (some [⟨.STATUS, .vnat 2⟩, ⟨.TIMESTAMP, .vnat 0⟩]) 1 20 none asc =
      .error (.UnsupportedFilterKind .RESULT ⟨.STATUS, .vnat 2⟩) := rfl

/-- C5 (amended): when every filter before the TIMESTAMP filter is valid
and resolvable, the call fails with the NotImplemented error — under
either query kind the TIMESTAMP filter is never silently ignored, but an
earlier offending filter's error takes precedence. -/
theorem timestamp_filter_fails_not_implemented (s : Store) (qt : QueryType)
    (pre post : List Filter) (v : FilterValue) (page pp : Int)
    (ob : Option String) (srt : String)
    (hpre : ∀ g ∈ pre, applicable s qt g = true) :
    get_results s qt (some (pre ++ ⟨.TIMESTAMP, v⟩ :: post)) page pp ob srt =
      .error .NotImplementedTimestamp := by
  cases qt with
  | RESULT =>
    have e1 := foldResultLogFilters_applicable s pre s.result_logs hpre
    simp only [get_results, get_resultlog_results, Option.getD_some]
    rw [foldResultLogFilters_append, e1]
    simp [foldResultLogFilters, applyResultLogFilter]
  | DISTRIBUTED =>
    have e1 := foldTaskFilters_applicable s pre s.tasks hpre
    simp only [get_results, get_distributed_results, Option.getD_some]
    rw [foldTaskFilters_append, e1]
    simp [foldTaskFilters, applyTaskFilter]

/-- Witness for `timestamp_filter_fails_not_implemented`: a valid ACTION
filter followed by a TIMESTAMP filter under RESULT. -/
theorem timestamp_filter_fails_not_implemented_witness :
    get_results S1 .RESULT
        (some ([⟨.ACTION, .vstr added⟩] ++ ⟨.TIMESTAMP, .vnat 0⟩ :: [])) 1 20 none asc =
      .error .NotImplementedTimestamp :=
  timestamp_filter_fails_not_implemented S1 .RESULT [⟨.ACTION, .vstr added⟩]
    [] (.vnat 0) 1 20 none asc (by decide)

/-- Counterexample for C6 as stated: the filter list contains a NODE
filter referencing an absent node (no node 99 in the store), yet the call
fails with the TIMESTAMP error of the earlier filter, not with
`NodeNotFound`. -/
theorem node_not_found_not_always_raised :
    get_results S1 .RESULT
        (some [⟨.TIMESTAMP, .vnat 0⟩, ⟨.NODE, .vnat 99⟩]) 1 20 none asc =
      .error .NotImplementedTimestamp := rfl

/-- C6 (amended): when every earlier filter is valid and resolvable, a
NODE filter that does not resolve to exactly one node fails the call with
`NodeNotFound` (under both query kinds), and under DISTRIBUTED a QUERY
filter that does not resolve to exactly one distributed query fails the
call with `DistributedQueryNotFound`. -/
theorem unresolved_reference_fails (s : Store) (qt : QueryType)
    (pre post : List Filter) (f : Filter) (page pp : Int)
    (ob : Option String) (srt : String)
    (hpre : ∀ g ∈ pre, applicable s qt g = true)
    (hbad : (f.type = .NODE ∧
        queryOne s.nodes (fun n => valEqNat f.value n.id) = none)
      ∨ (qt = .DISTRIBUTED ∧ f.type = .QUERY ∧
        queryOne s.distributed_queries (fun q => valEqNat f.value q.id) = none)) :
    get_results s qt (some (pre ++ f :: post)) page pp ob srt =
      .error (if f.type = .NODE then .NodeNotFound
        else .DistributedQueryNotFound) := by
  obtain ⟨ft, v⟩ := f
  rcases hbad with ⟨hft, hq⟩ | ⟨hqt, hft, hq⟩
  · replace hft : ft = .NODE := hft
    subst hft
    cases qt with
    | RESULT =>
      have e1 := foldResultLogFilters_applicable s pre s.result_logs hpre
      simp only [get_results, get_resultlog_results, Option.getD_some]
      rw [foldResultLogFilters_append, e1]
      simp [foldResultLogFilters, applyResultLogFilter, hq]
    | DISTRIBUTED =>
      have e1 := foldTaskFilters_applicable s pre s.tasks hpre
      simp only [get_results, get_distributed_results, Option.getD_some]
      rw [foldTaskFilters_append, e1]
      simp [foldTaskFilters, applyTaskFilter, hq]
  · subst hqt
    replace hft : ft = .QUERY := hft
    subst hft
    have e1 := foldTaskFilters_applicable s pre s.tasks hpre
    simp only [get_results, get_distributed_results, Option.getD_some]
    rw [foldTaskFilters_append, e1]
    simp [foldTaskFilters, applyTaskFilter, hq]

/-- Witness for `unresolved_reference_fails`: a NODE filter on the absent
node 99 under RESULT. -/
theorem unresolved_reference_fails_witness :
    get_results S1 .RESULT (some ([] ++ ⟨.NODE, .vnat 99⟩ :: [])) 1 20 none asc =
      .error (if (⟨.NODE, .vnat 99⟩ : Filter).type = .NODE then .NodeNotFound
        else .DistributedQueryNotFound) :=
  unresolved_reference_fails S1 .RESULT [] [] ⟨.NODE, .vnat 99⟩ 1 20 none asc
    (by decide) (Or.inl ⟨rfl, by decide⟩)

/-- C10: a DISTRIBUTED query whose (valid, resolvable) filters match zero
tasks succeeds with an empty page and total 0, even when result rows exist
in the store. -/
theorem no_matching_tasks_returns_empty (s : Store) (l : List Filter)
    (page pp : Int) (ob : Option String) (srt : String)
    (h : ∀ f ∈ l, applicable s .DISTRIBUTED f = true)
    (hz : s.tasks.filter (fun t => l.all fun f => taskPred s f t) = [])
    (hpage : 1 ≤ page) (hpp : 1 ≤ pp) :
    get_results s .DISTRIBUTED (some l) page pp ob srt =
      .ok ⟨[], 0, page, pp⟩ := by
  have e1 := get_distributed_results_applicable s l page pp h
  rw [hz] at e1
  have h0 : s.distributed_results.filter (fun r =>
      (List.map (fun t => t.id) ([] : List DistributedQueryTask)).contains
        r.distributed_query_task_id) = [] := by simp
  rw [h0] at e1
  have hcond : ¬(page < 1 ∨ pp < 1) := by omega
  simp only [get_results, Option.getD_some, e1, List.map_nil]
  simp [paginate, hcond]

/-- Witness for `no_matching_tasks_returns_empty`: a STATUS filter on the
unused status 7; both tasks have other statuses, though both have result
rows. -/
theorem no_matching_tasks_returns_empty_witness :
    get_results S1 .DISTRIBUTED (some [⟨.STATUS, .vnat 7⟩]) 1 20 none asc =
      .ok ⟨[], 0, 1, 20⟩ :=
  no_matching_tasks_returns_empty S1 [⟨.STATUS, .vnat 7⟩] 1 20 none asc
    (by decide) (by decide) (by decide) (by decide)

end Doorman
